import Mathlib

/-!
Verification of the exposure-and-video control core of the huntsman-pocs
camera polling script (`scripts/test_camera_poll_interval.py`).

The embedding models, faithfully to the Python source:
* the error taxonomy (`Err`), where `Timeout`, `IllegalValue` and
  `NotSupported` are subclasses of `PanError` while `AssertionError`,
  `RuntimeError`, `ValueError` and `NameError` are not;
* `Camera._control_setter` (clip-then-report parameter writes);
* the bit-padding correction applied in `Camera._readout` and
  `Camera._video_readout` (right shift by `16 - bit_depth` for RAW16);
* `Camera._poll_exposure` (try / except / else / finally around the polling
  loop, with the exposure event set in the `finally` block);
* `Camera.take_exposure` (asserts, readiness check, gate check, gate clear,
  start-exposure error handling);
* `Camera._video_readout` and `Camera.stop_video` (frame loop bounded by
  `max_frames`, external stop event, self-stop after the final frame);
* a small interleaving model of the gate check (`is_set`) followed by the
  gate transition (`clear`) executed by two concurrent callers.
-/

/-- Python exception kinds raised by the camera code.  The constructors
`timeout`, `illegalValue` and `notSupported` model `pocs.utils.error`
classes, all of which subclass `PanError`; `assertionError`,
`runtimeError`, `valueError` and `nameError` model the Python builtins,
which do not. -/
inductive Err where
  | panError (msg : String)
  | timeout (msg : String)
  | illegalValue (msg : String)
  | notSupported (msg : String)
  | assertionError
  | runtimeError (msg : String)
  | valueError (msg : String)
  | nameError
deriving DecidableEq, Repr

/-- Whether the exception is `PanError` or one of its subclasses in
`pocs.utils.error` (`Timeout`, `IllegalValue`, `NotSupported`). -/
def Err.isPanErrorFamily : Err → Bool
  | .panError _ => true
  | .timeout _ => true
  | .illegalValue _ => true
  | .notSupported _ => true
  | _ => false

/-- Message text carried by the exception (used when `take_exposure` wraps a
start failure into a new `PanError`). -/
def Err.msgText : Err → String
  | .panError m => m
  | .timeout m => m
  | .illegalValue m => m
  | .notSupported m => m
  | .assertionError => "AssertionError"
  | .runtimeError m => m
  | .valueError m => m
  | .nameError => "NameError"

/-- Exceptions caught by the `except (RuntimeError, ValueError, error.PanError)`
clause guarding `_start_exposure` inside `take_exposure`. -/
def Err.isStartCaught (e : Err) : Bool :=
  match e with
  | .runtimeError _ => true
  | .valueError _ => true
  | _ => e.isPanErrorFamily

/-! ## Control registry: `Camera._control_setter` -/

/-- One entry of the capability table returned by `get_control_caps`. -/
structure ControlCap where
  name : String
  is_writable : Bool
  is_auto_supported : Bool
  min_value : Int
  max_value : Int
deriving DecidableEq, Repr

/-- A value passed to `_control_setter`: either a numeric value or the
string sentinel `'AUTO'`. -/
inductive CtrlValue where
  | val (v : Int)
  | auto
deriving DecidableEq, Repr

/-- `Camera._control_setter(control_type, value)`.  The first component of
the result is the list of values actually sent to the device through
`set_control_value`, in order; the second is the call's outcome.  `info` is
the capability-table entry for `control_type` (`none` when the parameter is
absent from `self._control_info`). -/
def control_setter (info : Option ControlCap) (value : CtrlValue) :
    List CtrlValue × Except Err Unit :=
  match info with
  | none => ([], Except.error (Err.notSupported "camera has no such parameter"))
  | some cap =>
    if cap.is_writable = false then
      ([], Except.error (Err.notSupported ("camera cannot set " ++ cap.name ++ " parameter")))
    else
      match value with
      | CtrlValue.auto =>
        if cap.is_auto_supported = false then
          ([], Except.error (Err.illegalValue ("camera cannot set " ++ cap.name ++ " to AUTO")))
        else
          ([CtrlValue.auto], Except.ok ())
      | CtrlValue.val v =>
        if cap.max_value < v then
          ([CtrlValue.val cap.max_value],
           Except.error (Err.illegalValue
             ("Cannot set " ++ cap.name ++ " to " ++ toString v ++
              ", clipping to max value " ++ toString cap.max_value)))
        else if v < cap.min_value then
          ([CtrlValue.val cap.min_value],
           Except.error (Err.illegalValue
             ("Cannot set " ++ cap.name ++ " to " ++ toString v ++
              ", clipping to min value " ++ toString cap.min_value)))
        else
          ([CtrlValue.val v], Except.ok ())

/-! ## Frame decoder: padding correction in `_readout` and `_video_readout` -/

/-- ZWO image types (`supported_video_format`). -/
inductive ImageType where
  | RAW8
  | RAW16
  | RGB24
  | Y8
deriving DecidableEq, Repr

/-- Bit width of the integer encoding each output sample: 16 for RAW16,
8 for the byte-wide encodings. -/
def outputWidth : ImageType → Nat
  | ImageType.RAW16 => 16
  | _ => 8

/-- Pad bits computed in `Camera._readout`: `16 - bit_depth` when the image
type is RAW16, otherwise no shift is applied. -/
def readoutPadBits (imageType : ImageType) (bitDepth : Nat) : Nat :=
  if imageType = ImageType.RAW16 then 16 - bitDepth else 0

/-- Pad bits computed once before the loop in `Camera._video_readout`;
the formula is the same as in `_readout`. -/
def videoPadBits (imageType : ImageType) (bitDepth : Nat) : Nat :=
  if imageType = ImageType.RAW16 then 16 - bitDepth else 0

/-- Per-pixel decode in `Camera._readout`:
`np.right_shift(image_data, pad_bits)`. -/
def readoutDecodePixel (imageType : ImageType) (bitDepth : Nat) (raw : Nat) : Nat :=
  raw >>> readoutPadBits imageType bitDepth

/-- Per-pixel decode in `Camera._video_readout`:
`np.right_shift(video_data, pad_bits)`. -/
def videoDecodePixel (imageType : ImageType) (bitDepth : Nat) (raw : Nat) : Nat :=
  raw >>> videoPadBits imageType bitDepth

/-! ## Completion poller: `Camera._poll_exposure` -/

/-- What one query of `Camera.is_exposing` (i.e. `get_exposure_status`)
observes at a given loop iteration: the camera still reports `WORKING`, the
exposure has reached a terminal status (loop exit), or the driver raises. -/
inductive PollStep where
  | exposing
  | done
  | driverFault (e : Err)

/-- Timeout message raised inside `_poll_exposure`. -/
def timeoutMsg : String := "Timeout waiting for exposure to complete"

/-- The `while self.is_exposing` loop of `_poll_exposure`.  `trace i` is
what the `i`-th `is_exposing` query observes; `fuel` is the number of
iterations for which `timer.expired()` is still false (the countdown timer
seeded from the configured hardware timeout).  The loop first queries
`is_exposing`; while it reports `WORKING` it checks the timer, raising
`Timeout` once expired, and otherwise sleeps one polling interval and
repeats. -/
def pollLoop (trace : Nat → PollStep) (fuel i : Nat) : Except Err Unit :=
  match trace i with
  | PollStep.done => Except.ok ()
  | PollStep.driverFault e => Except.error e
  | PollStep.exposing =>
    match fuel with
    | 0 => Except.error (Err.timeout timeoutMsg)
    | f + 1 => pollLoop trace f (i + 1)

/-- `Camera._poll_exposure(readout_args)`.  `readoutResult` is the outcome
of the camera-type-specific `_readout` call performed in the `else` branch
on normal loop exit.  The result pairs the exception (if any) escaping the
poller thread with the final state of `self._exposure_event`
(`true` = set = completion gate clear).  The `except (RuntimeError,
error.PanError)` clause logs and re-raises, so the escaping exception is
the loop's own; the `finally` block sets the event unconditionally. -/
def poll_exposure (trace : Nat → PollStep) (fuel : Nat)
    (readoutResult : Except Err Unit) : Except Err Unit × Bool :=
  let tryResult := pollLoop trace fuel 0
  let bodyResult : Except Err Unit :=
    match tryResult with
    | Except.error e => Except.error e
    | Except.ok _ => readoutResult
  (bodyResult, true)

/-! ## Exposure controller: `Camera.take_exposure` -/

/-- Inputs determining one call of `take_exposure`: camera connectivity,
the destination filename, the ingredients of the readiness report
(temperature stability, per-subcomponent readiness, and whether the driver
reports an exposure in progress), the current state of
`self._exposure_event` (`true` = set = gate clear), and the outcome of the
camera-type-specific `_start_exposure` call. -/
structure TakeInput where
  connected : Bool
  filename : Option String
  temperature_stable : Bool
  subcomponents : List (String × Bool)
  driver_exposing : Bool
  event_set : Bool
  startResult : Except Err Unit
deriving Repr

/-- The readiness report consulted by `take_exposure`: temperature
stability, each configured subcomponent, and `not_exposing` (the driver
does not report `WORKING`). -/
def readiness_report (inp : TakeInput) : List (String × Bool) :=
  ("temperature_stable", inp.temperature_stable) ::
    (inp.subcomponents ++ [("not_exposing", !inp.driver_exposing)])

/-- `self.is_ready`: conjunction of every entry of the readiness report. -/
def take_is_ready (inp : TakeInput) : Bool :=
  (readiness_report inp).all (fun p => p.2)

/-- The `PanError` message enumerating unready subsystems, built when
`take_exposure` finds the camera not ready. -/
def notReadyMsg (inp : TakeInput) : String :=
  let problems :=
    (if inp.temperature_stable then [] else ["unstable temperature"]) ++
    ((inp.subcomponents.filter (fun p => !p.2)).map (fun p => p.1 ++ " not ready")) ++
    (if inp.driver_exposing then ["exposure in progress"] else [])
  "Attempt to start exposure while not ready: " ++ String.intercalate ", " problems ++ "."

/-- `PanError` message raised when `self._exposure_event` is not set. -/
def inProgressMsg : String := "Attempt to take exposure while one already in progress."

/-- `Camera.take_exposure(seconds, filename, ...)` up to the point where the
poller thread is scheduled.  Returns the call's outcome together with the
state of `self._exposure_event` when the call returns or raises
(`true` = set = gate clear, `false` = cleared = exposure pending).
Mirrors the source order: `assert self.is_connected` and
`assert filename is not None` (both raise `AssertionError`), the readiness
check (raises `PanError` listing problems), the gate check (raises
`PanError` without touching the event), `self._exposure_event.clear()`,
then `_start_exposure` guarded by `except (RuntimeError, ValueError,
error.PanError)`, which restores the event and raises a wrapping
`PanError`. -/
def take_exposure (inp : TakeInput) : Except Err Unit × Bool :=
  if inp.connected = false then
    (Except.error Err.assertionError, inp.event_set)
  else if inp.filename.isNone then
    (Except.error Err.assertionError, inp.event_set)
  else if take_is_ready inp = false then
    (Except.error (Err.panError (notReadyMsg inp)), inp.event_set)
  else if inp.event_set = false then
    (Except.error (Err.panError inProgressMsg), inp.event_set)
  else
    match inp.startResult with
    | Except.error e =>
      if e.isStartCaught then
        (Except.error (Err.panError ("Error starting exposure: " ++ e.msgText)), true)
      else
        (Except.error e, false)
    | Except.ok _ => (Except.ok (), false)

/-- A fresh `take_exposure` call on an otherwise ready camera whose
exposure event is in state `gate`, with a start command that succeeds. -/
def nextStart (gate : Bool) : TakeInput :=
  { connected := true
    filename := some "/tmp/polltest.fits"
    temperature_stable := true
    subcomponents := []
    driver_exposing := false
    event_set := gate
    startResult := Except.ok () }

/-- `take_exposure(..., blocking=True)` followed by the poller thread's run.
When the exposure starts, the caller waits on `self._exposure_event` and
the call returns the event, whose observable state is its set/clear flag.
Any exception raised inside `_poll_exposure` propagates only within the
poller thread (a `threading.Timer` thread) and never reaches the caller;
the caller observes nothing but the returned event. -/
def take_exposure_blocking (inp : TakeInput) (trace : Nat → PollStep)
    (fuel : Nat) (readoutResult : Except Err Unit) : Except Err Bool :=
  match take_exposure inp with
  | (Except.error e, _) => Except.error e
  | (Except.ok _, _) => Except.ok (poll_exposure trace fuel readoutResult).2

/-! ## Video session: `Camera._video_readout` and `Camera.stop_video` -/

/-- Mutable state of one video session, observed from outside:
`frameNumber` is the Python local `frame_number` (`none` while unbound),
`pulls` counts calls to `get_video_data`, `good`/`bad` the frame counters,
`stops` the number of `stop_video_capture` driver commands issued by this
session's own `stop_video` call, and `videoEventSet` the state of
`self._video_event` as far as this session has set it. -/
structure VState where
  frameNumber : Option Nat
  pulls : Nat
  good : Nat
  bad : Nat
  stops : Nat
  videoEventSet : Bool
deriving DecidableEq, Repr

/-- Session state before the loop starts (`_video_event` cleared by
`start_video`, counters zero, `frame_number` unbound). -/
def vInit : VState :=
  { frameNumber := none, pulls := 0, good := 0, bad := 0, stops := 0, videoEventSet := false }

/-- `Camera.stop_video`: sets `self._video_event` and issues the driver's
`stop_video_capture` command. -/
def stop_video (s : VState) : VState :=
  { s with videoEventSet := true, stops := s.stops + 1 }

/-- The `for frame_number in range(max_frames)` loop of `_video_readout`.
`extStop i` tells whether an external caller has set `self._video_event`
before the `i`-th iteration's check; `frameTrace i` tells whether the
`i`-th `get_video_data` call returns data (`true`) or `None` (`false`,
a dropped frame, counted and skipped without error).  Each iteration first
binds `frame_number`, then breaks if the event is set, otherwise performs
one blocking frame pull. -/
def videoLoopAux (extStop frameTrace : Nat → Bool) (i rem : Nat) (s : VState) : VState :=
  match rem with
  | 0 => s
  | r + 1 =>
    if extStop i then
      { s with frameNumber := some i }
    else
      let s1 :=
        if frameTrace i then
          { s with frameNumber := some i, pulls := s.pulls + 1, good := s.good + 1 }
        else
          { s with frameNumber := some i, pulls := s.pulls + 1, bad := s.bad + 1 }
      videoLoopAux extStop frameTrace (i + 1) r s1

/-- `Camera._video_readout(...)`: run the frame loop, then evaluate
`if frame_number == max_frames - 1: self.stop_video()`.  When
`max_frames = 0` the loop body never runs, `frame_number` is never bound,
and referencing it raises `UnboundLocalError`, a subclass of `NameError`
(modelled as `Err.nameError`); the session's own stop is then never
issued. -/
def video_readout (extStop frameTrace : Nat → Bool) (max_frames : Nat) :
    Except Err Unit × VState :=
  let s := videoLoopAux extStop frameTrace 0 max_frames vInit
  match s.frameNumber with
  | none => (Except.error Err.nameError, s)
  | some fn =>
    if fn = max_frames - 1 then (Except.ok (), stop_video s)
    else (Except.ok (), s)

/-! ## Interleaving model of the gate check in `take_exposure`

Lines 473-478 of the source run, with no lock held:
`if not self._exposure_event.is_set(): raise ...` followed by
`self._exposure_event.clear()`.  Two caller threads each execute this
read step then write step against the shared event. -/

/-- The two caller threads. -/
inductive Tid where
  | t1
  | t2
deriving DecidableEq, Repr

/-- Program counter of one caller inside the gate check-and-clear region:
about to run the `is_set` check, about to run `clear`, past `clear` (the
caller proceeds to start an exposure), or aborted by the `PanError`. -/
inductive Pc where
  | beforeCheck
  | beforeClear
  | proceeded
  | aborted
deriving DecidableEq, Repr

/-- Shared state: the exposure event (`true` = set = gate clear) and each
caller's program counter. -/
structure RaceState where
  gate_set : Bool
  pc1 : Pc
  pc2 : Pc
deriving DecidableEq, Repr

/-- One step of one caller: the `is_set` read (raising `PanError` when the
event is cleared), or the `clear` write after which the caller proceeds. -/
def stepThread (gate : Bool) (pc : Pc) : Bool × Pc :=
  match pc with
  | Pc.beforeCheck => if gate then (gate, Pc.beforeClear) else (gate, Pc.aborted)
  | Pc.beforeClear => (false, Pc.proceeded)
  | other => (gate, other)

/-- Interleaved execution: the scheduled thread takes its next step. -/
def raceStep (s : RaceState) (t : Tid) : RaceState :=
  match t with
  | Tid.t1 =>
    let gp := stepThread s.gate_set s.pc1
    { s with gate_set := gp.1, pc1 := gp.2 }
  | Tid.t2 =>
    let gp := stepThread s.gate_set s.pc2
    { s with gate_set := gp.1, pc2 := gp.2 }

/-- Both callers poised at the gate check, gate clear (event set). -/
def raceInit : RaceState :=
  { gate_set := true, pc1 := Pc.beforeCheck, pc2 := Pc.beforeCheck }

/-- Run a schedule (a sequence of thread choices) from `raceInit`. -/
def runRace (sched : List Tid) : RaceState :=
  sched.foldl raceStep raceInit

/-! ## Concrete inputs used by witnesses and counterexamples -/

/-- A connected, ready camera with a clear gate and a start command that
succeeds (the normal `take_exposure` starting point). -/
def readyInput : TakeInput :=
  { connected := true
    filename := some "/tmp/polltest.fits"
    temperature_stable := true
    subcomponents := []
    driver_exposing := false
    event_set := true
    startResult := Except.ok () }

/-- The `GAIN` capability entry used as a concrete writable parameter. -/
def gainCap : ControlCap :=
  { name := "Gain"
    is_writable := true
    is_auto_supported := true
    min_value := 0
    max_value := 600 }

/-- A camera with an exposure pending (gate cleared), used to witness C2. -/
def pendingInput : TakeInput :=
  { readyInput with event_set := false }

/-- A ready camera whose driver start-exposure command raises
`RuntimeError`, used to witness C6. -/
def startFailInput : TakeInput :=
  { readyInput with startResult := Except.error (Err.runtimeError "ASI_ERROR_TIMEOUT") }

/-- A driver that immediately reports the exposure finished. -/
def traceDone : Nat → PollStep := fun _ => PollStep.done

/-- A driver that reports `WORKING` forever (the exposure never reaches a
terminal status). -/
def traceStuck : Nat → PollStep := fun _ => PollStep.exposing

/-! ## Helper lemmas -/

/-- On a driver stuck at `WORKING`, the polling loop always ends in
`Timeout`, whatever the timer budget and starting index. -/
lemma pollLoop_stuck (fuel : Nat) :
    ∀ i, pollLoop traceStuck fuel i = Except.error (Err.timeout timeoutMsg) := by
  induction fuel with
  | zero => intro i; rfl
  | succ f ih => intro i; exact ih (i + 1)

/-- With no external stop, a loop of `r + 1` iterations performs exactly
`r + 1` frame pulls, issues no stop command, and leaves `frame_number`
bound to the last index `i + r`. -/
lemma videoLoopAux_noExtStop (frameTrace : Nat → Bool) :
    ∀ (r i : Nat) (s : VState),
      (videoLoopAux (fun _ => false) frameTrace i (r + 1) s).pulls = s.pulls + (r + 1) ∧
      (videoLoopAux (fun _ => false) frameTrace i (r + 1) s).stops = s.stops ∧
      (videoLoopAux (fun _ => false) frameTrace i (r + 1) s).frameNumber = some (i + r) := by
  intro r
  induction r with
  | zero =>
    intro i s
    by_cases hf : frameTrace i <;> simp [videoLoopAux, hf]
  | succ r ih =>
    intro i s
    by_cases hf : frameTrace i
    · have h := ih (i + 1)
        { s with frameNumber := some i, pulls := s.pulls + 1, good := s.good + 1 }
      simp only [videoLoopAux, hf, if_true, if_false, Bool.false_eq_true] at h ⊢
      refine ⟨?_, ?_, ?_⟩
      · rw [h.1]; omega
      · rw [h.2.1]
      · rw [h.2.2]; congr 1; omega
    · have h := ih (i + 1)
        { s with frameNumber := some i, pulls := s.pulls + 1, bad := s.bad + 1 }
      simp only [videoLoopAux, hf, if_true, if_false, Bool.false_eq_true] at h ⊢
      refine ⟨?_, ?_, ?_⟩
      · rw [h.1]; omega
      · rw [h.2.1]
      · rw [h.2.2]; congr 1; omega

/-- Whatever the stop and frame traces, a loop of at least one iteration
always binds `frame_number` to some index. -/
lemma videoLoopAux_binds_frameNumber (extStop frameTrace : Nat → Bool) :
    ∀ (r i : Nat) (s : VState),
      ∃ k, (videoLoopAux extStop frameTrace i (r + 1) s).frameNumber = some k := by
  intro r
  induction r with
  | zero =>
    intro i s
    by_cases he : extStop i
    · exact ⟨i, by simp [videoLoopAux, he]⟩
    · by_cases hf : frameTrace i <;> exact ⟨i, by simp [videoLoopAux, he, hf]⟩
  | succ r ih =>
    intro i s
    by_cases he : extStop i
    · exact ⟨i, by simp [videoLoopAux, he]⟩
    · by_cases hf : frameTrace i
      · obtain ⟨k, hk⟩ := ih (i + 1)
          { s with frameNumber := some i, pulls := s.pulls + 1, good := s.good + 1 }
        exact ⟨k, by simp only [videoLoopAux, he, hf, if_true, if_false,
          Bool.false_eq_true]; exact hk⟩
      · obtain ⟨k, hk⟩ := ih (i + 1)
          { s with frameNumber := some i, pulls := s.pulls + 1, bad := s.bad + 1 }
        exact ⟨k, by simp only [videoLoopAux, he, hf, if_true, if_false,
          Bool.false_eq_true]; exact hk⟩

/-- With the gate already cleared and the second caller not past its check,
one interleaving step keeps the gate cleared and keeps the second caller
away from the `proceeded` state. -/
lemma raceStep_preserves (s : RaceState) (t : Tid)
    (hg : s.gate_set = false)
    (h2 : s.pc2 = Pc.beforeCheck ∨ s.pc2 = Pc.aborted) :
    (raceStep s t).gate_set = false ∧
      ((raceStep s t).pc2 = Pc.beforeCheck ∨ (raceStep s t).pc2 = Pc.aborted) := by
  cases t with
  | t1 => cases hpc : s.pc1 <;> simp [raceStep, stepThread, hg, hpc, h2]
  | t2 => rcases h2 with h | h <;> simp [raceStep, stepThread, hg, h]

/-- The invariant of `raceStep_preserves` carried through any remaining
schedule. -/
lemma runRaceFrom_inv :
    ∀ (rest : List Tid) (s : RaceState),
      s.gate_set = false →
      (s.pc2 = Pc.beforeCheck ∨ s.pc2 = Pc.aborted) →
      ((rest.foldl raceStep s).pc2 = Pc.beforeCheck ∨
        (rest.foldl raceStep s).pc2 = Pc.aborted) := by
  intro rest
  induction rest with
  | nil => intro s hg h2; simpa using h2
  | cons t ts ih =>
    intro s hg h2
    obtain ⟨hg2, h22⟩ := raceStep_preserves s t hg h2
    simpa using ih (raceStep s t) hg2 h22

/-! ## Claims -/

/-- Claim C1: for every exposure whose poller runs, the completion gate
(`self._exposure_event`) is set back to clear as the final step of
`_poll_exposure` on every exit path — normal completion, `Timeout` when the
countdown expires, a driver error re-raised mid-poll, or an exception from
readout itself — so a subsequent `take_exposure` on a ready camera is not
blocked by a still-pending gate.  The first conjunct quantifies over every
driver trace, timer budget and readout outcome; the second shows the next
start call succeeds from the resulting gate state; the third exhibits the
timeout exit path explicitly. -/
theorem claim_C1_poller_always_clears_gate
    (trace : Nat → PollStep) (fuel : Nat) (ro : Except Err Unit) :
    (poll_exposure trace fuel ro).2 = true ∧
    take_exposure (nextStart (poll_exposure trace fuel ro).2) = (Except.ok (), false) ∧
    (poll_exposure traceStuck fuel ro).1 = Except.error (Err.timeout timeoutMsg) := by
  refine ⟨rfl, rfl, ?_⟩
  have h := pollLoop_stuck fuel 0
  simp [poll_exposure, h]

/-- Claim C2: a `take_exposure` call on a connected camera with a filename,
made while the completion gate is pending (`_exposure_event` cleared),
fails with a `PanError` and leaves the gate state exactly as it was, so the
pending exposure's poller still ends with the gate set. -/
theorem claim_C2_pending_gate_undisturbed (inp : TakeInput)
    (hc : inp.connected = true) (hf : inp.filename.isSome = true)
    (hp : inp.event_set = false) :
    (∃ msg, (take_exposure inp).1 = Except.error (Err.panError msg)) ∧
    (take_exposure inp).2 = false ∧
    ∀ (trace : Nat → PollStep) (fuel : Nat) (ro : Except Err Unit),
      (poll_exposure trace fuel ro).2 = true := by
  have hfn : inp.filename.isNone = false := by
    cases h : inp.filename <;> simp_all
  refine ⟨?_, ?_, fun _ _ _ => rfl⟩
  · by_cases hr : take_is_ready inp = false
    · exact ⟨notReadyMsg inp, by simp [take_exposure, hc, hfn, hr]⟩
    · exact ⟨inProgressMsg, by simp [take_exposure, hc, hfn, hr, hp]⟩
  · by_cases hr : take_is_ready inp = false <;>
      simp [take_exposure, hc, hfn, hr, hp]

/-- Witness for C2 at a concrete pending camera. -/
theorem claim_C2_witness :
    (∃ msg, (take_exposure pendingInput).1 = Except.error (Err.panError msg)) ∧
    (take_exposure pendingInput).2 = false ∧
    ∀ (trace : Nat → PollStep) (fuel : Nat) (ro : Except Err Unit),
      (poll_exposure trace fuel ro).2 = true :=
  claim_C2_pending_gate_undisturbed pendingInput rfl rfl rfl

/-- Claim C3: for a writable parameter with bounds `[min, max]` and a
non-AUTO value `v`, `_control_setter` sends the clipped value to the device
and fails with `IllegalValue` when `v` is out of range (`max` when
`v > max`, `min` when `v < min`), and sends `v` with no error when `v` is
within the bounds. -/
theorem claim_C3_control_setter_clips (cap : ControlCap) (v : Int)
    (hw : cap.is_writable = true) :
    (cap.max_value < v →
      control_setter (some cap) (CtrlValue.val v) =
        ([CtrlValue.val cap.max_value],
         Except.error (Err.illegalValue
           ("Cannot set " ++ cap.name ++ " to " ++ toString v ++
            ", clipping to max value " ++ toString cap.max_value)))) ∧
    (v < cap.min_value → cap.min_value ≤ cap.max_value →
      control_setter (some cap) (CtrlValue.val v) =
        ([CtrlValue.val cap.min_value],
         Except.error (Err.illegalValue
           ("Cannot set " ++ cap.name ++ " to " ++ toString v ++
            ", clipping to min value " ++ toString cap.min_value)))) ∧
    (cap.min_value ≤ v → v ≤ cap.max_value →
      control_setter (some cap) (CtrlValue.val v) =
        ([CtrlValue.val v], Except.ok ())) := by
  refine ⟨?_, ?_, ?_⟩
  · intro hmax
    simp [control_setter, hw, hmax]
  · intro hmin hle
    have hnmax : ¬ cap.max_value < v := by omega
    simp [control_setter, hw, hnmax, hmin]
  · intro h1 h2
    have hnmax : ¬ cap.max_value < v := by omega
    have hnmin : ¬ v < cap.min_value := by omega
    simp [control_setter, hw, hnmax, hnmin]

/-- Witness for C3 on the concrete `Gain` capability with bounds
`[0, 600]`: value 601 is clipped to 600 with `IllegalValue`, value -1 is
clipped to 0 with `IllegalValue`, and value 300 is sent with no error. -/
theorem claim_C3_witness :
    control_setter (some gainCap) (CtrlValue.val 601) =
      ([CtrlValue.val gainCap.max_value],
       Except.error (Err.illegalValue
         ("Cannot set " ++ gainCap.name ++ " to " ++ toString (601 : Int) ++
          ", clipping to max value " ++ toString gainCap.max_value))) ∧
    control_setter (some gainCap) (CtrlValue.val (-1)) =
      ([CtrlValue.val gainCap.min_value],
       Except.error (Err.illegalValue
         ("Cannot set " ++ gainCap.name ++ " to " ++ toString (-1 : Int) ++
          ", clipping to min value " ++ toString gainCap.min_value))) ∧
    control_setter (some gainCap) (CtrlValue.val 300) =
      ([CtrlValue.val 300], Except.ok ()) :=
  ⟨(claim_C3_control_setter_clips gainCap 601 rfl).1 (by decide),
   (claim_C3_control_setter_clips gainCap (-1) rfl).2.1 (by decide) (by decide),
   (claim_C3_control_setter_clips gainCap 300 rfl).2.2 (by decide) (by decide)⟩

/-- Claim C4: a raw frame word whose sensor bit depth is `d` and whose
output encoding has width `w ≥ d` decodes to the raw value right-shifted by
`w - d`, identically in `_readout` and `_video_readout`.  In the source the
only padded encoding is RAW16 (`w = 16`); for the byte-wide encodings the
frame is unpadded (`w = d`) and no shift is applied, which is the same
`w - d = 0` shift. -/
theorem claim_C4_decode_right_shift (t : ImageType) (d : Nat) (raw : Nat)
    (hcase : t = ImageType.RAW16 ∨ outputWidth t = d) :
    readoutDecodePixel t d raw = raw >>> (outputWidth t - d) ∧
    videoDecodePixel t d raw = raw >>> (outputWidth t - d) := by
  rcases hcase with h | h
  · subst h
    simp [readoutDecodePixel, videoDecodePixel, readoutPadBits, videoPadBits, outputWidth]
  · cases t <;>
      simp_all [readoutDecodePixel, videoDecodePixel, readoutPadBits, videoPadBits, outputWidth]

/-- Witness for C4: with sensor depth 12 and RAW16 output (width 16), the
raw word 0xFFF0 decodes to 0x0FFF in both readout paths. -/
theorem claim_C4_witness :
    readoutDecodePixel ImageType.RAW16 12 0xFFF0 = 0x0FFF ∧
    videoDecodePixel ImageType.RAW16 12 0xFFF0 = 0x0FFF := by
  have h := claim_C4_decode_right_shift ImageType.RAW16 12 0xFFF0 (Or.inl rfl)
  exact ⟨h.1.trans (by decide), h.2.trans (by decide)⟩

/-- Counterexample to claim C5 as stated: `take_exposure` on a
disconnected camera, and `take_exposure` with no filename, fail via the
source's `assert` statements with `AssertionError`, which is not `PanError`
or any of its subclasses. -/
theorem claim_C5_counterexample :
    (take_exposure { readyInput with connected := false }).1 =
      Except.error Err.assertionError ∧
    (take_exposure { readyInput with filename := none }).1 =
      Except.error Err.assertionError ∧
    Err.assertionError.isPanErrorFamily = false :=
  ⟨rfl, rfl, rfl⟩

/-- Claim C5 (amended): `take_exposure` fails with `AssertionError` — not
`PanError` — when the camera is not connected, and likewise when no
destination filename is supplied; in both cases the gate is untouched. -/
theorem claim_C5_asserts_connected_and_filename (inp : TakeInput) :
    (inp.connected = false →
      take_exposure inp = (Except.error Err.assertionError, inp.event_set)) ∧
    (inp.connected = true → inp.filename = none →
      take_exposure inp = (Except.error Err.assertionError, inp.event_set)) := by
  constructor
  · intro h
    simp [take_exposure, h]
  · intro hc hf
    simp [take_exposure, hc, hf]

/-- Witness for the amended C5 at concrete disconnected and
filename-less inputs. -/
theorem claim_C5_witness :
    take_exposure { readyInput with connected := false } =
      (Except.error Err.assertionError, true) ∧
    take_exposure { readyInput with filename := none } =
      (Except.error Err.assertionError, true) :=
  ⟨(claim_C5_asserts_connected_and_filename { readyInput with connected := false }).1 rfl,
   (claim_C5_asserts_connected_and_filename { readyInput with filename := none }).2 rfl rfl⟩

/-- Claim C6: when the device start-exposure command fails after the gate
was set to pending — with any exception reached by the source's
`except (RuntimeError, ValueError, error.PanError)` clause — `take_exposure`
restores the gate to clear (`_exposure_event` set) and fails with a
`PanError` wrapping the underlying error's message. -/
theorem claim_C6_start_failure_restores_gate (inp : TakeInput) (e : Err)
    (hc : inp.connected = true) (hf : inp.filename.isSome = true)
    (hready : take_is_ready inp = true) (he : inp.event_set = true)
    (hr : inp.startResult = Except.error e) (hcaught : e.isStartCaught = true) :
    take_exposure inp =
      (Except.error (Err.panError ("Error starting exposure: " ++ e.msgText)), true) := by
  have hfn : inp.filename.isNone = false := by
    cases h : inp.filename <;> simp_all
  simp [take_exposure, hc, hfn, hready, he, hr, hcaught]

/-- Witness for C6: the concrete start failure restores the gate and is
wrapped in a `PanError`. -/
theorem claim_C6_witness :
    take_exposure startFailInput =
      (Except.error (Err.panError
        ("Error starting exposure: " ++ (Err.runtimeError "ASI_ERROR_TIMEOUT").msgText)), true) :=
  claim_C6_start_failure_restores_gate startFailInput
    (Err.runtimeError "ASI_ERROR_TIMEOUT") rfl rfl rfl rfl rfl rfl

/-- Claim C7: a video session started with `max_frames = N + 1 ≥ 1` on
which `stop_video` is never called externally performs at most
`max_frames` frame pulls (in fact exactly `max_frames`), completes without
error, and issues its own device stop-video command exactly once after the
loop. -/
theorem claim_C7_video_self_stop (frameTrace : Nat → Bool) (N : Nat) :
    (video_readout (fun _ => false) frameTrace (N + 1)).2.pulls = N + 1 ∧
    (video_readout (fun _ => false) frameTrace (N + 1)).2.stops = 1 ∧
    (video_readout (fun _ => false) frameTrace (N + 1)).1 = Except.ok () := by
  obtain ⟨hp, hs, hn⟩ := videoLoopAux_noExtStop frameTrace N 0 vInit
  have hz : (0 : Nat) + N = (N + 1) - 1 := by omega
  rw [hz] at hn
  simp only [video_readout, hn]
  refine ⟨?_, ?_, ?_⟩
  · simp only [if_true, stop_video]
    rw [hp]; simp [vInit]
  · simp only [if_true, stop_video]
    rw [hs]; simp [vInit]
  · simp

/-- Claim C8 counterexample: the gate check (`is_set`) and the transition
to pending (`clear`) are a separate read then write, not an atomic
check-and-set.  Under the interleaving in which both callers run their
check before either runs its clear, both observe the gate clear and both
proceed to start an exposure. -/
theorem claim_C8_counterexample :
    (runRace [Tid.t1, Tid.t2, Tid.t1, Tid.t2]).pc1 = Pc.proceeded ∧
    (runRace [Tid.t1, Tid.t2, Tid.t1, Tid.t2]).pc2 = Pc.proceeded :=
  ⟨rfl, rfl⟩

/-- Claim C8 (amended): the gate check and the transition to pending are a
plain read (`is_set`) followed by a write (`clear`) with no lock, so they
do not behave as an atomic check-and-set: there is an interleaving in which
both callers observe the gate clear and both proceed.  Mutual exclusion
holds only when the calls do not interleave: in every schedule where one
caller completes its check and clear before the other caller's first step,
the second caller never proceeds. -/
theorem claim_C8_read_then_write_not_atomic (rest : List Tid) :
    (runRace (Tid.t1 :: Tid.t1 :: rest)).pc2 ≠ Pc.proceeded ∧
    ∃ sched : List Tid,
      (runRace sched).pc1 = Pc.proceeded ∧ (runRace sched).pc2 = Pc.proceeded := by
  constructor
  · have h : runRace (Tid.t1 :: Tid.t1 :: rest) =
        rest.foldl raceStep
          { gate_set := false, pc1 := Pc.proceeded, pc2 := Pc.beforeCheck } := rfl
    rw [h]
    rcases runRaceFrom_inv rest
        { gate_set := false, pc1 := Pc.proceeded, pc2 := Pc.beforeCheck }
        rfl (Or.inl rfl) with h2 | h2 <;> simp [h2]
  · exact ⟨[Tid.t1, Tid.t2, Tid.t1, Tid.t2], rfl, rfl⟩

/-- Counterexample to claim C9 as stated: a blocking `take_exposure` whose
exposure times out returns exactly the same observable value as one whose
exposure succeeds (the set exposure event), even though the poller really
failed with `Timeout` — the caller cannot learn that the exposure failed,
because the poller's exception is raised on the `threading.Timer` thread
and no failure record is kept for the caller. -/
theorem claim_C9_counterexample :
    take_exposure_blocking readyInput traceDone 5 (Except.ok ()) = Except.ok true ∧
    take_exposure_blocking readyInput traceStuck 0 (Except.ok ()) = Except.ok true ∧
    (poll_exposure traceStuck 0 (Except.ok ())).1 = Except.error (Err.timeout timeoutMsg) :=
  ⟨rfl, rfl, rfl⟩

/-- Claim C9 (amended): every terminal fault in the completion poller
clears the gate (the `finally` block sets `_exposure_event`), and the fault
is logged in the poller thread, but no failure record is made observable to
the caller: a blocking `take_exposure` on a ready camera returns the set
event — the same observable as a successful exposure — for every driver
trace, timer budget and readout outcome. -/
theorem claim_C9_fault_clears_gate_invisible_to_caller
    (trace : Nat → PollStep) (fuel : Nat) (ro : Except Err Unit) :
    (poll_exposure trace fuel ro).2 = true ∧
    take_exposure_blocking readyInput trace fuel ro = Except.ok true :=
  ⟨rfl, rfl⟩

/-- Claim C10: a video session started with `max_frames = 0` never runs
the loop body (no frame pulls), leaves the loop variable `frame_number`
unbound so the after-loop self-stop check raises an unhandled `NameError`
(`UnboundLocalError`), and never issues the device stop-video command;
for `max_frames ≥ 1` the loop and self-stop logic complete without this
error. -/
theorem claim_C10_zero_frames_name_error (extStop frameTrace : Nat → Bool) :
    video_readout extStop frameTrace 0 = (Except.error Err.nameError, vInit) ∧
    vInit.pulls = 0 ∧ vInit.stops = 0 ∧
    ∀ N : Nat, (video_readout extStop frameTrace (N + 1)).1 = Except.ok () := by
  refine ⟨rfl, rfl, rfl, ?_⟩
  intro N
  obtain ⟨k, hk⟩ := videoLoopAux_binds_frameNumber extStop frameTrace N 0 vInit
  simp only [video_readout, hk]
  by_cases hkN : k = N <;> simp [hkN]

/-- Witness for the amended C8 at the empty remaining schedule: after the
first caller completes its check and clear, the second caller never
proceeds. -/
theorem claim_C8_witness :
    (runRace [Tid.t1, Tid.t1]).pc2 ≠ Pc.proceeded ∧
    ∃ sched : List Tid,
      (runRace sched).pc1 = Pc.proceeded ∧ (runRace sched).pc2 = Pc.proceeded :=
  claim_C8_read_then_write_not_atomic []
